import Mathlib

/-!
Shallow embedding of the ctznry top-level client-side router
(src/static/js/app.js): path-pattern matching and route resolution
(lines 15-17 and 109-161), navigation with the single-slot scroll-position
cache (lines 73-104), history popstate handling (lines 198-204), the global
click interceptor (lines 166-187), and the initial load (lines 65-71).

External collaborators (the browser URL parser, the outcome of
session.setup(), the DOM composed event path, window.scrollY and
window.location) enter the model as explicit parameters; everything the
router itself does is translated from the source.
-/

namespace Ctznry

/-!
### Path patterns (app.js lines 15-17)

POST_PATH_REGEX    is  new RegExp of  /([^/]+@[^/]+)/ctzn.network/post/([^/]+)     with flag i
COMMENT_PATH_REGEX is  new RegExp of  /([^/]+@[^/]+)/ctzn.network/comment/([^/]+)  with flag i
USER_PATH_REGEX    is  new RegExp of  /([^/]+@[^/]+)                               with no flag

RegExp.prototype.test is unanchored: it attempts a match at every position of
the input.  Each pattern starts with a literal slash, so only positions
holding a slash can start a match; scanSlash is that search loop.  The group
[^/]+@[^/]+ asks for a slash-free block holding an at-sign with at least one
slash-free character before it and one after it.  The i flag compares the
ASCII pattern letters case-insensitively (Char.toLower on both sides agrees
with the ECMAScript non-unicode canonicalisation for ASCII pattern letters),
and the unescaped dot of ctzn.network matches any single character.
-/

/-- Is the first character present and different from a slash?  (Used for the
final `[^/]+` of each pattern: an unanchored match only needs one such
character.) -/
def headNonSlash : List Char → Bool
  | [] => false
  | d :: _ => d != '/'

/-- After at least one slash-free character has been consumed, look for an
at-sign that is followed by a slash-free character, moving only over
slash-free characters.  This is the `...@[^/]+` part of `[^/]+@[^/]+` in an
unanchored match. -/
def seekAt : List Char → Bool
  | [] => false
  | c :: rest =>
    if c == '/' then false
    else (c == '@' && headNonSlash rest) || seekAt rest

/-- Body of USER_PATH_REGEX after its leading slash: `[^/]+@[^/]+`. -/
def userBody : List Char → Bool
  | [] => false
  | c :: rest => c != '/' && seekAt rest

/-- The search loop of RegExp.prototype.test for a pattern that starts with a
literal slash: try the pattern body at every slash of the input. -/
def scanSlash (f : List Char → Bool) : List Char → Bool
  | [] => false
  | c :: rest => (c == '/' && f rest) || scanSlash f rest

/-- `USER_PATH_REGEX.test` (app.js line 17). -/
def userTestL (cs : List Char) : Bool := scanSlash userBody cs

/-- Consume a literal pattern fragment case-insensitively (flag i), returning
the remaining input on success. -/
def eatCI : List Char → List Char → Option (List Char)
  | [], cs => some cs
  | _ :: _, [] => none
  | p :: ps, c :: cs => if p.toLower == c.toLower then eatCI ps cs else none

/-- The fragment `ctzn.network/<kind>/([^/]+)` of the two thread patterns:
the literal ctzn, then the unescaped dot (any single character), then
network/<kind>/, then at least one slash-free character. -/
def threadTail (kind : List Char) (cs : List Char) : Bool :=
  match eatCI (['c', 't', 'z', 'n']) cs with
  | none => false
  | some cs1 =>
    match cs1 with
    | [] => false
    | _ :: cs2 =>
      match eatCI ((['n', 'e', 't', 'w', 'o', 'r', 'k', '/'] ++ kind) ++ ['/']) cs2 with
      | none => false
      | some cs3 => headNonSlash cs3

/-- Does the list hold an at-sign that is not its last element? -/
def hasAtNonLast : List Char → Bool
  | [] => false
  | [_] => false
  | c :: d :: rest => c == '@' || hasAtNonLast (d :: rest)

/-- Does the list split as `x ++ '@' :: y` with `x` and `y` nonempty?  For a
slash-free segment this is exactly whether `[^/]+@[^/]+` can cover it. -/
def hasInternalAt : List Char → Bool
  | [] => false
  | _ :: rest => hasAtNonLast rest

/-- Body of the thread patterns after their leading slash:
`[^/]+@[^/]+` followed by a literal slash and then the given tail.  Since the
group is slash-free and must be followed by a slash, it extends exactly to
the next slash of the input. -/
def identThen (tail : List Char → Bool) (cs : List Char) : Bool :=
  hasInternalAt (cs.takeWhile (fun c => c != '/')) &&
    match cs.dropWhile (fun c => c != '/') with
    | [] => false
    | _ :: rest => tail rest

/-- `POST_PATH_REGEX.test` (app.js line 15). -/
def postTestL (cs : List Char) : Bool :=
  scanSlash (identThen (threadTail (['p', 'o', 's', 't']))) cs

/-- `COMMENT_PATH_REGEX.test` (app.js line 16). -/
def commentTestL (cs : List Char) : Bool :=
  scanSlash (identThen (threadTail (['c', 'o', 'm', 'm', 'e', 'n', 't']))) cs

/-- The characters of ctzn.network/post/ — the concrete middle part of a
post-thread path, whose dot position the pattern treats as a wildcard. -/
def postMid : List Char :=
  ['c', 't', 'z', 'n', '.', 'n', 'e', 't', 'w', 'o', 'r', 'k', '/', 'p', 'o', 's', 't', '/']

/-- The characters of ctzn.network/comment/. -/
def commentMid : List Char :=
  ['c', 't', 'z', 'n', '.', 'n', 'e', 't', 'w', 'o', 'r', 'k', '/',
   'c', 'o', 'm', 'm', 'e', 'n', 't', '/']

/-!
### Route resolution (app.js lines 109-161)

The render method first switches on the exact current path (the three root
aliases share the main view), then tests the three patterns in order: post,
comment, user; anything else renders the 404 markup.  The discriminated view
kind stands for which component render returns.
-/

/-- Which view component render returns for a path. -/
inductive ViewKind where
  | main
  | forgotPassword
  | notifications
  | communities
  | account
  | search
  | signup
  | thread
  | profile
  | notFound
deriving DecidableEq

/-- Does the path hit one of the exact cases of the switch (lines 120-137)? -/
def isExactPath (p : String) : Bool :=
  p == "/" || p == "/index" || p == "/index.html" || p == "/forgot-password" ||
    p == "/notifications" || p == "/communities" || p == "/account" ||
    p == "/search" || p == "/signup"

/-- The path-to-view mapping of render (lines 120-160): exact switch cases
first, then POST_PATH_REGEX, COMMENT_PATH_REGEX, USER_PATH_REGEX in order,
then the 404 markup. -/
def resolve (p : String) : ViewKind :=
  if p == "/" || p == "/index" || p == "/index.html" then ViewKind.main
  else if p == "/forgot-password" then ViewKind.forgotPassword
  else if p == "/notifications" then ViewKind.notifications
  else if p == "/communities" then ViewKind.communities
  else if p == "/account" then ViewKind.account
  else if p == "/search" then ViewKind.search
  else if p == "/signup" then ViewKind.signup
  else if postTestL p.data then ViewKind.thread
  else if commentTestL p.data then ViewKind.thread
  else if userTestL p.data then ViewKind.profile
  else ViewKind.notFound

/-!
### Application state and navigation (app.js lines 51-104)

The component state is currentPath, the single-slot scrollPositionCache and
isLoading.  window.scrollY at the moment of a call is an input.  The
history side effects of navigateTo (replaceState stamping the outgoing entry
with the scroll offset, pushState creating the new entry, and the
scrollToAfterLoad scheduled for a remembered anchor page) are returned as an
explicit effects record.  The one-time history.scrollRestoration = manual
write (lines 74-76) touches only a browser global and is not part of the
component state.
-/

/-- The scrollPositionCache record (lines 83-86). -/
structure CacheRec where
  pathname : String
  scrollY : Int
deriving DecidableEq

/-- Component state of CtznApp. -/
structure AppState where
  currentPath : String
  scrollPositionCache : Option CacheRec
  isLoading : Bool
deriving DecidableEq

/-- Observable effects of one navigateTo call. -/
structure NavEffects where
  /-- scrollY written by replaceState onto the outgoing entry (line 88). -/
  stampedScrollY : Int
  /-- path given to pushState for the new entry (line 89). -/
  pushedPath : String
  /-- argument of the scrollToAfterLoad call, when one is made (lines 92-94). -/
  scheduledScroll : Option Int
deriving DecidableEq

/-- The consume step of the scroll cache (lines 92-94):
`prevScrollPositionCache?.pathname === pathname` guards reading the cached
offset; optional chaining makes an empty cache compare false. -/
def tryConsume (cache : Option CacheRec) (pathname : String) : Option Int :=
  match cache with
  | some c => if c.pathname == pathname then some c.scrollY else none
  | none => none

/-- navigateTo (lines 73-95): remember the previous cache slot, capture the
outgoing page's scroll offset when the outgoing currentPath is an anchor
page, stamp the outgoing history entry, push the new entry, update
currentPath, and schedule a scroll restoration when the previous cache slot
was for the destination. -/
def navigateTo (st : AppState) (pathname : String) (windowScrollY : Int) :
    AppState × NavEffects :=
  let prev := st.scrollPositionCache
  let cache' :=
    if st.currentPath == "/" || st.currentPath == "/notifications" then
      some { pathname := st.currentPath, scrollY := windowScrollY }
    else st.scrollPositionCache
  ({ currentPath := pathname, scrollPositionCache := cache', isLoading := st.isLoading },
   { stampedScrollY := windowScrollY, pushedPath := pathname,
     scheduledScroll := tryConsume prev pathname })

/-!
### History popstate handling (app.js lines 198-204)

The popstate state payload written by this app is either the empty object
from pushState (no scrollY field) or the record from replaceState; the
browser hands the handler null for entries never stamped (modeled as none).
The handler emits close-all-popups, sets currentPath from the location, and
then reads e.state.scrollY without a guard: on a null state this read throws
a TypeError after the first two effects already took place.  The trace lists
the effects in program order.
-/

/-- A history entry state payload: an object that may carry a scrollY field. -/
structure StateRec where
  scrollY : Option Int
deriving DecidableEq

/-- One observable step of the popstate handler. -/
inductive Effect where
  | emitClosePopups
  | setCurrentPath (p : String)
  | scheduleScroll (y : Int)
  | throwTypeError
deriving DecidableEq

/-- Effect trace of onHistoryPopstate (lines 198-204).  JS truthiness of
e.state.scrollY: a missing field and zero are falsy, every other number is
truthy; reading .scrollY from a null state throws. -/
def onHistoryPopstateTrace (locPathname : String) (state : Option StateRec) :
    List Effect :=
  Effect.emitClosePopups :: Effect.setCurrentPath locPathname ::
    (match state with
     | none => [Effect.throwTypeError]
     | some st =>
       match st.scrollY with
       | some y => if y != 0 then [Effect.scheduleScroll y] else []
       | none => [])

/-- State change performed by onHistoryPopstate: currentPath is set from the
location; the cache and the loading flag are untouched (this holds even when
the unguarded scrollY read throws afterwards, since the assignment precedes
it). -/
def applyPopstate (st : AppState) (locPathname : String) (_state : Option StateRec) :
    AppState :=
  { st with currentPath := locPathname }

/-- load (lines 65-71): `try { await session.setup() } finally
{ this.isLoading = false }`.  The outcome of the external session.setup() is
a parameter.  The finally block always runs and completes normally, so
isLoading is set to false on both outcomes while the try block's completion
(normal or thrown) is preserved as the result of load. -/
def load (st : AppState) (setupOutcome : Except String Unit) :
    AppState × Except String Unit :=
  ({ st with isLoading := false }, setupOutcome)

/-- The state-changing operations of the component. -/
inductive Op where
  | nav (pathname : String) (windowScrollY : Int)
  | popstate (locPathname : String) (state : Option StateRec)
  | doLoad (setupOutcome : Except String Unit)

/-- State transition of one operation. -/
def step (st : AppState) : Op → AppState
  | Op.nav p y => (navigateTo st p y).1
  | Op.popstate loc s => applyPopstate st loc s
  | Op.doLoad r => (load st r).1

/-- The scroll-cache invariant: a non-empty slot names an anchor page. -/
def cacheInv (st : AppState) : Bool :=
  match st.scrollPositionCache with
  | none => true
  | some c => c.pathname == "/" || c.pathname == "/notifications"

/-!
### Click interception (app.js lines 166-187)

The handler walks e.composedPath() (ordered from the event target outward),
reassigning its anchor variable at every element whose tagName is the
capital letter A, so the variable ends holding the last anchor of the walk.
With no anchor, a null href attribute, or a cross-origin resolution the
event is left untouched; otherwise the default is prevented and navigateTo
receives url.pathname.  The browser URL parser (new URL(href, origin)) is an
external collaborator passed as a function.
-/

/-- An element on the composed dispatch path, with the result of
getAttribute applied to href (none models null). -/
structure Elem where
  tagName : String
  href : Option String
deriving DecidableEq

/-- A click event as the handler sees it. -/
structure ClickEvent where
  defaultPrevented : Bool
  composedPath : List Elem
deriving DecidableEq

/-- Result of the browser URL parser: origin and pathname of the resolved
URL. -/
structure URLRec where
  origin : String
  pathname : String
deriving DecidableEq

/-- What the click handler does to the event. -/
inductive ClickOutcome where
  /-- neither preventDefault nor navigateTo: the browser default runs. -/
  | passthrough
  /-- preventDefault followed by navigateTo on the given pathname. -/
  | intercept (pathname : String)
deriving DecidableEq

/-- The test of the anchor-selection loop: `el.tagName === 'A'`. -/
def isAnchor (el : Elem) : Bool := el.tagName == "A"

/-- The loop of lines 171-176: the anchor variable is overwritten at every
anchor of the composed path, so the last one wins. -/
def findAnchor (els : List Elem) : Option Elem :=
  els.foldl (fun acc el => if isAnchor el then some el else acc) none

/-- onGlobalClick (lines 166-187).  resolveURL models new URL(href, origin). -/
def onGlobalClick (resolveURL : String → String → URLRec) (locOrigin : String)
    (e : ClickEvent) : ClickOutcome :=
  if e.defaultPrevented then ClickOutcome.passthrough
  else
    match findAnchor e.composedPath with
    | none => ClickOutcome.passthrough
    | some anchor =>
      match anchor.href with
      | none => ClickOutcome.passthrough
      | some href =>
        let url := resolveURL href locOrigin
        if url.origin == locOrigin then ClickOutcome.intercept url.pathname
        else ClickOutcome.passthrough

/-!
### Characterisations of the pattern matchers
-/

/-- The search loop succeeds exactly when the body matches after some slash. -/
theorem scanSlash_eq_true (f : List Char → Bool) (cs : List Char) :
    scanSlash f cs = true ↔ ∃ pre rest, cs = pre ++ ('/' :: rest) ∧ f rest = true := by
  induction cs with
  | nil =>
    simp only [scanSlash]
    constructor
    · intro h
      exact absurd h (by decide)
    · rintro ⟨pre, rest, heq, -⟩
      cases pre <;> simp at heq
  | cons c t ih =>
    simp only [scanSlash, Bool.or_eq_true, Bool.and_eq_true, beq_iff_eq, ih]
    constructor
    · rintro (⟨rfl, hf⟩ | ⟨pre, rest, rfl, hf⟩)
      · exact ⟨[], t, rfl, hf⟩
      · exact ⟨c :: pre, rest, rfl, hf⟩
    · rintro ⟨pre, rest, heq, hf⟩
      cases pre with
      | nil =>
        injection heq with h1 h2
        subst h2
        exact Or.inl ⟨h1, hf⟩
      | cons e pre' =>
        injection heq with h1 h2
        subst h2
        exact Or.inr ⟨pre', rest, rfl, hf⟩

/-- `...@[^/]+` after at least one consumed character of `[^/]+`. -/
theorem seekAt_eq_true (cs : List Char) :
    seekAt cs = true ↔
      ∃ x d s, cs = x ++ ('@' :: d :: s) ∧ (∀ c ∈ x, c ≠ '/') ∧ d ≠ '/' := by
  induction cs with
  | nil =>
    constructor
    · intro h
      exact absurd h (by decide)
    · rintro ⟨x, d, s, heq, -, -⟩
      cases x <;> simp at heq
  | cons c t ih =>
    by_cases hc : c = '/'
    · subst hc
      constructor
      · intro h
        simp [seekAt] at h
      · rintro ⟨x, d, s, heq, hx, hd⟩
        cases x with
        | nil =>
          injection heq with h1 _
          exact absurd h1 (by decide)
        | cons e x' =>
          injection heq with h1 _
          exact absurd rfl (hx '/' (List.mem_cons.mpr (Or.inl h1)))
    · have hcb : (c == '/') = false := beq_eq_false_iff_ne.mpr hc
      simp only [seekAt, hcb, Bool.false_eq_true, if_false, Bool.or_eq_true,
        Bool.and_eq_true, beq_iff_eq, ih]
      constructor
      · rintro (⟨rfl, hh⟩ | ⟨x, d, s, rfl, hx, hd⟩)
        · cases t with
          | nil => exact absurd hh (by decide)
          | cons d t' =>
            refine ⟨[], d, t', rfl, by simp, ?_⟩
            simpa [headNonSlash] using hh
        · refine ⟨c :: x, d, s, rfl, ?_, hd⟩
          intro a ha
          rcases List.mem_cons.mp ha with rfl | ha'
          · exact hc
          · exact hx a ha'
      · rintro ⟨x, d, s, heq, hx, hd⟩
        cases x with
        | nil =>
          injection heq with h1 h2
          subst h2
          exact Or.inl ⟨h1, by simpa [headNonSlash] using hd⟩
        | cons e x' =>
          injection heq with h1 h2
          exact Or.inr ⟨x', d, s, h2, fun a ha => hx a (List.mem_cons_of_mem e ha), hd⟩

/-- Body of USER_PATH_REGEX after its slash: `[^/]+@[^/]+`. -/
theorem userBody_eq_true (cs : List Char) :
    userBody cs = true ↔
      ∃ x d s, cs = x ++ ('@' :: d :: s) ∧ x ≠ [] ∧ (∀ c ∈ x, c ≠ '/') ∧ d ≠ '/' := by
  cases cs with
  | nil =>
    constructor
    · intro h
      exact absurd h (by decide)
    · rintro ⟨x, d, s, heq, -, -, -⟩
      cases x <;> simp at heq
  | cons c t =>
    simp only [userBody, Bool.and_eq_true, bne_iff_ne, ne_eq, seekAt_eq_true]
    constructor
    · rintro ⟨hc, x, d, s, rfl, hx, hd⟩
      refine ⟨c :: x, d, s, rfl, by simp, ?_, hd⟩
      intro a ha
      rcases List.mem_cons.mp ha with rfl | ha'
      · exact hc
      · exact hx a ha'
    · rintro ⟨x, d, s, heq, hxne, hx, hd⟩
      cases x with
      | nil => exact absurd rfl hxne
      | cons e x' =>
        injection heq with h1 h2
        subst h1
        exact ⟨hx c (by simp), ⟨x', d, s, h2, fun a ha => hx a (List.mem_cons_of_mem c ha), hd⟩⟩

/-- USER_PATH_REGEX matches exactly the strings holding a slash followed by a
slash-free nonempty block, an at-sign and one more slash-free character —
anywhere in the string, not only in the first segment. -/
theorem userTestL_eq_true (cs : List Char) :
    userTestL cs = true ↔
      ∃ pre x d s, cs = pre ++ ('/' :: (x ++ ('@' :: d :: s))) ∧ x ≠ [] ∧
        (∀ c ∈ x, c ≠ '/') ∧ d ≠ '/' := by
  simp only [userTestL, scanSlash_eq_true, userBody_eq_true]
  constructor
  · rintro ⟨pre, rest, rfl, x, d, s, rfl, hxne, hx, hd⟩
    exact ⟨pre, x, d, s, rfl, hxne, hx, hd⟩
  · rintro ⟨pre, x, d, s, rfl, hxne, hx, hd⟩
    exact ⟨pre, _, rfl, x, d, s, rfl, hxne, hx, hd⟩

theorem hasAtNonLast_append (x y : List Char) (hy : y ≠ []) :
    hasAtNonLast (x ++ ('@' :: y)) = true := by
  induction x with
  | nil =>
    cases y with
    | nil => exact absurd rfl hy
    | cons d r => simp [hasAtNonLast]
  | cons c t ih =>
    cases t with
    | nil =>
      cases y with
      | nil => exact absurd rfl hy
      | cons d r => simp [hasAtNonLast]
    | cons e t' =>
      simp only [List.cons_append, hasAtNonLast, Bool.or_eq_true]
      exact Or.inr ih

theorem hasInternalAt_append (x y : List Char) (hx : x ≠ []) (hy : y ≠ []) :
    hasInternalAt (x ++ ('@' :: y)) = true := by
  cases x with
  | nil => exact absurd rfl hx
  | cons c t =>
    simpa [hasInternalAt, List.cons_append] using hasAtNonLast_append t y hy

/-- The body of a thread pattern succeeds on `ident/tail` when the identity
block has the internal at-sign and the tail matcher accepts the rest. -/
theorem identThen_shape (t : List Char → Bool) (x y rest : List Char)
    (hx : x ≠ []) (hy : y ≠ []) (hxs : ∀ c ∈ x, c ≠ '/') (hys : ∀ c ∈ y, c ≠ '/')
    (ht : t rest = true) :
    identThen t (x ++ ('@' :: (y ++ ('/' :: rest)))) = true := by
  have hall : ∀ c ∈ x ++ ('@' :: y), (fun c => c != '/') c = true := by
    intro c hcm
    simp only [List.mem_append, List.mem_cons] at hcm
    rcases hcm with h | h | h
    · simpa [bne_iff_ne] using hxs c h
    · subst h
      decide
    · simpa [bne_iff_ne] using hys c h
  have hre : x ++ ('@' :: (y ++ ('/' :: rest))) = (x ++ ('@' :: y)) ++ ('/' :: rest) := by
    simp [List.append_assoc]
  rw [identThen, hre, List.takeWhile_append_of_pos hall, List.dropWhile_append_of_pos hall]
  simp [List.takeWhile_cons, List.dropWhile_cons, hasInternalAt_append x y hx hy, ht]

theorem threadTail_postMid (i : List Char) :
    threadTail (['p', 'o', 's', 't']) (postMid ++ i) = headNonSlash i := rfl

theorem threadTail_commentMid (i : List Char) :
    threadTail (['c', 'o', 'm', 'm', 'e', 'n', 't']) (commentMid ++ i) = headNonSlash i := rfl

theorem headNonSlash_of (i : List Char) (hi : i ≠ []) (his : ∀ c ∈ i, c ≠ '/') :
    headNonSlash i = true := by
  cases i with
  | nil => exact absurd rfl hi
  | cons d r =>
    simp only [headNonSlash, bne_iff_ne, ne_eq, decide_not]
    simpa using his d (by simp)

/-- POST_PATH_REGEX accepts a path of the thread shape whose identity has an
internal at-sign. -/
theorem postTestL_shape (x y i : List Char)
    (hx : x ≠ []) (hy : y ≠ []) (hi : i ≠ [])
    (hxs : ∀ c ∈ x, c ≠ '/') (hys : ∀ c ∈ y, c ≠ '/') (his : ∀ c ∈ i, c ≠ '/') :
    postTestL ('/' :: (x ++ ('@' :: (y ++ ('/' :: (postMid ++ i)))))) = true := by
  have hb : identThen (threadTail (['p', 'o', 's', 't']))
      (x ++ ('@' :: (y ++ ('/' :: (postMid ++ i))))) = true := by
    refine identThen_shape _ x y (postMid ++ i) hx hy hxs hys ?_
    rw [threadTail_postMid]
    exact headNonSlash_of i hi his
  simp [postTestL, scanSlash, hb]

/-- COMMENT_PATH_REGEX accepts the comment variant of the thread shape. -/
theorem commentTestL_shape (x y i : List Char)
    (hx : x ≠ []) (hy : y ≠ []) (hi : i ≠ [])
    (hxs : ∀ c ∈ x, c ≠ '/') (hys : ∀ c ∈ y, c ≠ '/') (his : ∀ c ∈ i, c ≠ '/') :
    commentTestL ('/' :: (x ++ ('@' :: (y ++ ('/' :: (commentMid ++ i)))))) = true := by
  have hb : identThen (threadTail (['c', 'o', 'm', 'm', 'e', 'n', 't']))
      (x ++ ('@' :: (y ++ ('/' :: (commentMid ++ i))))) = true := by
    refine identThen_shape _ x y (commentMid ++ i) hx hy hxs hys ?_
    rw [threadTail_commentMid]
    exact headNonSlash_of i hi his
  simp [commentTestL, scanSlash, hb]

/-!
### The resolver away from the exact switch cases
-/

theorem data_post_path (x y i : String) :
    ("/" ++ x ++ "@" ++ y ++ "/ctzn.network/post/" ++ i).data =
      '/' :: (x.data ++ ('@' :: (y.data ++ ('/' :: (postMid ++ i.data))))) := by
  have h0 : ("/" : String).data = ['/'] := rfl
  have h1 : ("@" : String).data = ['@'] := rfl
  have h2 : ("/ctzn.network/post/" : String).data = '/' :: postMid := rfl
  simp [String.data_append, h0, h1, h2, postMid, List.append_assoc]

theorem data_comment_path (x y i : String) :
    ("/" ++ x ++ "@" ++ y ++ "/ctzn.network/comment/" ++ i).data =
      '/' :: (x.data ++ ('@' :: (y.data ++ ('/' :: (commentMid ++ i.data))))) := by
  have h0 : ("/" : String).data = ['/'] := rfl
  have h1 : ("@" : String).data = ['@'] := rfl
  have h2 : ("/ctzn.network/comment/" : String).data = '/' :: commentMid := rfl
  simp [String.data_append, h0, h1, h2, commentMid, List.append_assoc]

/-- None of the exact switch cases holds an at-sign, so a path holding one
falls through the switch. -/
theorem isExactPath_eq_false_of_at (p : String) (h : '@' ∈ p.data) :
    isExactPath p = false := by
  have n : ∀ q : String, '@' ∉ q.data → (p == q) = false := fun q hq =>
    beq_eq_false_iff_ne.mpr (fun e => hq (e ▸ h))
  simp [isExactPath, n ("/") (by decide), n ("/index") (by decide),
    n ("/index.html") (by decide), n ("/forgot-password") (by decide),
    n ("/notifications") (by decide), n ("/communities") (by decide),
    n ("/account") (by decide), n ("/search") (by decide), n ("/signup") (by decide)]

/-- Past the switch, render is the three pattern tests in order and the 404
fallback. -/
theorem resolve_of_not_exact (p : String) (h : isExactPath p = false) :
    resolve p =
      (if postTestL p.data then ViewKind.thread
       else if commentTestL p.data then ViewKind.thread
       else if userTestL p.data then ViewKind.profile
       else ViewKind.notFound) := by
  simp only [isExactPath, Bool.or_eq_false_iff] at h
  obtain ⟨⟨⟨⟨⟨⟨⟨⟨h1, h2⟩, h3⟩, h4⟩, h5⟩, h6⟩, h7⟩, h8⟩, h9⟩ := h
  simp [resolve, h1, h2, h3, h4, h5, h6, h7, h8, h9]

/-!
### The anchor-selection loop and the loading flag
-/

/-- The overwrite-on-every-match fold keeps the last match of the list. -/
theorem foldl_anchor (els : List Elem) (acc : Option Elem) :
    els.foldl (fun a el => if isAnchor el then some el else a) acc =
      (els.reverse.find? isAnchor).or acc := by
  induction els generalizing acc with
  | nil => simp
  | cons e t ih =>
    simp only [List.foldl_cons, List.reverse_cons, List.find?_append, ih]
    cases hpe : isAnchor e <;> cases hfind : t.reverse.find? isAnchor <;>
      simp [List.find?, hpe, Option.or]

/-- The loop of lines 171-176 selects the last anchor of the composed path,
that is the first anchor of the reversed (outside-in) path. -/
theorem findAnchor_eq (els : List Elem) :
    findAnchor els = els.reverse.find? isAnchor := by
  rw [findAnchor, foldl_anchor]
  cases els.reverse.find? isAnchor <;> simp [Option.or]

/-- Once the loading flag is off, no operation turns it back on. -/
theorem isLoading_foldl_false (ops : List Op) (st : AppState)
    (h : st.isLoading = false) : (ops.foldl step st).isLoading = false := by
  induction ops generalizing st with
  | nil => exact h
  | cons op t ih =>
    refine ih _ ?_
    cases op with
    | nav p y => simpa [step, navigateTo] using h
    | popstate loc s => simpa [step, applyPopstate] using h
    | doLoad r => simp [step, load]

/-!
### Claims
-/

/-- C1: for the call sequence navigateTo of /notifications, then /, then
/notifications, starting with currentPath = /notifications and an empty
cache, the third call schedules a scroll restoration to exactly the offset
that the cache captured when the navigation left /notifications (the second
call, the first one to depart /notifications, captured s2 and the third call
schedules s2), even though the departure from / in the third call — / being
itself an anchor page — overwrites the cache slot with the / entry before
the equality check of line 92 runs; the check reads the previously saved
slot (prevScrollPositionCache), so the restoration still fires.  The theorem
lists the cache slot after each call and every scheduled restoration of the
trace. -/
theorem c1_round_trip (s1 s2 s3 : Int) :
    (navigateTo ⟨("/notifications"), none, false⟩ ("/notifications") s1).1.scrollPositionCache
      = some ⟨("/notifications"), s1⟩ ∧
    (navigateTo ⟨("/notifications"), none, false⟩ ("/notifications") s1).2.scheduledScroll
      = none ∧
    (navigateTo (navigateTo ⟨("/notifications"), none, false⟩ ("/notifications") s1).1
        ("/") s2).1.scrollPositionCache = some ⟨("/notifications"), s2⟩ ∧
    (navigateTo (navigateTo ⟨("/notifications"), none, false⟩ ("/notifications") s1).1
        ("/") s2).2.scheduledScroll = none ∧
    (navigateTo (navigateTo (navigateTo ⟨("/notifications"), none, false⟩
        ("/notifications") s1).1 ("/") s2).1 ("/notifications") s3).2.scheduledScroll
      = some s2 ∧
    (navigateTo (navigateTo (navigateTo ⟨("/notifications"), none, false⟩
        ("/notifications") s1).1 ("/") s2).1 ("/notifications") s3).1.scrollPositionCache
      = some ⟨("/"), s3⟩ :=
  ⟨rfl, rfl, rfl, rfl, rfl, rfl⟩

/-- C6: whenever the cache slot is non-empty its pathname is / or
/notifications, and this is preserved by every operation; moreover a
navigateTo whose outgoing currentPath is neither anchor page leaves the
cache slot untouched. -/
theorem c6_cache_anchor_invariant :
    (∀ (st : AppState) (op : Op), cacheInv st = true → cacheInv (step st op) = true) ∧
    (∀ (st : AppState) (p : String) (y : Int),
      st.currentPath ≠ ("/") → st.currentPath ≠ ("/notifications") →
      (navigateTo st p y).1.scrollPositionCache = st.scrollPositionCache) := by
  constructor
  · intro st op h
    cases op with
    | nav p y =>
      cases hc : (st.currentPath == "/" || st.currentPath == "/notifications") with
      | true => simp [step, navigateTo, cacheInv, hc]
      | false => simpa [step, navigateTo, cacheInv, hc] using h
    | popstate loc s => simpa [step, applyPopstate, cacheInv] using h
    | doLoad r => simpa [step, load, cacheInv] using h
  · intro st p y h1 h2
    simp [navigateTo, beq_eq_false_iff_ne.mpr h1, beq_eq_false_iff_ne.mpr h2]

/-- Witness for C6 at a concrete non-anchor outgoing page. -/
theorem c6_cache_anchor_invariant_witness :
    cacheInv (step ⟨("/post/x"), some ⟨("/"), 3⟩, false⟩ (Op.nav ("/y") 9)) = true ∧
    (navigateTo ⟨("/post/x"), some ⟨("/"), 3⟩, false⟩ ("/y") 9).1.scrollPositionCache =
      some ⟨("/"), 3⟩ :=
  ⟨c6_cache_anchor_invariant.1 ⟨("/post/x"), some ⟨("/"), 3⟩, false⟩ (Op.nav ("/y") 9)
      (by decide),
   c6_cache_anchor_invariant.2 ⟨("/post/x"), some ⟨("/"), 3⟩, false⟩ ("/y") 9
      (by decide) (by decide)⟩

/-- C7: every popstate activation first emits close-all-popups and then sets
currentPath from the location, whatever the entry state is (even a null
state, whose unguarded read throws only after those two effects), and a
scroll restoration is scheduled exactly for a present nonzero scrollY. -/
theorem c7_popstate_order_and_guard (loc : String) (state : Option StateRec) :
    (onHistoryPopstateTrace loc state).take 2 =
      [Effect.emitClosePopups, Effect.setCurrentPath loc] ∧
    (∀ y : Int, Effect.scheduleScroll y ∈ onHistoryPopstateTrace loc state ↔
      state = some ⟨some y⟩ ∧ y ≠ 0) := by
  constructor
  · rfl
  · intro y
    rcases state with - | ⟨sy⟩
    · simp [onHistoryPopstateTrace]
    · rcases sy with - | y0
      · simp [onHistoryPopstateTrace]
      · by_cases hy0 : y0 = 0
        · subst hy0
          simp [onHistoryPopstateTrace]
          rintro rfl
          simp
        · simp [onHistoryPopstateTrace, bne_iff_ne.mpr hy0]
          constructor
          · rintro rfl
            exact ⟨rfl, hy0⟩
          · rintro ⟨h1, -⟩
            exact h1.symm

/-- C8: the load operation sets isLoading to false on every outcome of the
external session.setup() (its finally clause is unconditional), propagates a
bootstrap failure unchanged instead of swallowing it, and afterwards no
sequence of operations turns isLoading back on. -/
theorem c8_loading_unconditional (st : AppState) (r : Except String Unit)
    (ops : List Op) :
    (load st r).1.isLoading = false ∧ (load st r).2 = r ∧
    (ops.foldl step (load st r).1).isLoading = false :=
  ⟨rfl, rfl, isLoading_foldl_false ops _ rfl⟩

/-- C9: the consume step of the scroll cache yields the cached offset exactly
when the cached pathname equals the consumed pathname by string equality —
with no trailing-slash normalisation — and yields none otherwise; it is
precisely the scheduling decision of navigateTo (lines 92-94). -/
theorem c9_tryConsume_exact (c : CacheRec) (p : String) :
    (c.pathname = p → tryConsume (some c) p = some c.scrollY) ∧
    (c.pathname ≠ p → tryConsume (some c) p = none) ∧
    tryConsume none p = none ∧
    (∀ (st : AppState) (y : Int),
      (navigateTo st p y).2.scheduledScroll = tryConsume st.scrollPositionCache p) ∧
    tryConsume (some ⟨("/x"), 7⟩) ("/x/") = none ∧
    tryConsume (some ⟨("/x/"), 7⟩) ("/x") = none := by
  refine ⟨fun h => ?_, fun h => ?_, rfl, fun st y => rfl, by decide, by decide⟩
  · simp [tryConsume, h]
  · simp [tryConsume, beq_eq_false_iff_ne.mpr h]

/-- Witness for C9: a hit on exact equality, a miss otherwise. -/
theorem c9_tryConsume_exact_witness :
    tryConsume (some ⟨("/x"), 5⟩) ("/x") = some 5 ∧
    tryConsume (some ⟨("/y"), 5⟩) ("/x") = none :=
  ⟨(c9_tryConsume_exact ⟨("/x"), 5⟩ ("/x")).1 rfl,
   (c9_tryConsume_exact ⟨("/y"), 5⟩ ("/x")).2.1 (by decide)⟩

/-- C10: a popstate whose state payload is null runs the close-all-popups
broadcast and the currentPath update and then throws a TypeError at the
unguarded read of e.state.scrollY — the throw is the last entry of the
trace, after the two effects took place. -/
theorem c10_null_state_throws (loc : String) :
    onHistoryPopstateTrace loc none =
      [Effect.emitClosePopups, Effect.setCurrentPath loc, Effect.throwTypeError] := rfl

/-- C2 counterexample: the identity segment of /@a/ctzn.network/post/1 does
contain an at-sign, yet the path resolves to the 404 kind, not the thread
kind — the group `[^/]+@[^/]+` needs a character on both sides of the
at-sign, so an identity whose at-sign is its first (or last) character
matches neither thread pattern nor the profile pattern. -/
theorem c2_counterexample :
    resolve ("/@a/ctzn.network/post/1") = ViewKind.notFound ∧
    resolve ("/@a/ctzn.network/post/1") ≠ ViewKind.thread := by
  decide

/-- C2 (amended): for every path of the thread shape
/identity/ctzn.network/post/id or /identity/ctzn.network/comment/id whose
slash-free identity carries an at-sign with at least one character before
and after it (and a nonempty slash-free id), render resolves to the thread
kind — and never to the user-profile kind, although the path also matches
the looser profile pattern — because the two thread patterns are tested
first. -/
theorem c2_thread_precedence (x y i : String)
    (hx : x.data ≠ []) (hxs : ∀ c ∈ x.data, c ≠ '/')
    (hy : y.data ≠ []) (hys : ∀ c ∈ y.data, c ≠ '/')
    (hi : i.data ≠ []) (his : ∀ c ∈ i.data, c ≠ '/') :
    resolve ("/" ++ x ++ "@" ++ y ++ "/ctzn.network/post/" ++ i) = ViewKind.thread ∧
    resolve ("/" ++ x ++ "@" ++ y ++ "/ctzn.network/comment/" ++ i) = ViewKind.thread ∧
    resolve ("/" ++ x ++ "@" ++ y ++ "/ctzn.network/post/" ++ i) ≠ ViewKind.profile ∧
    resolve ("/" ++ x ++ "@" ++ y ++ "/ctzn.network/comment/" ++ i) ≠ ViewKind.profile := by
  have hat1 : '@' ∈ ("/" ++ x ++ "@" ++ y ++ "/ctzn.network/post/" ++ i).data := by
    rw [data_post_path]
    simp
  have hat2 : '@' ∈ ("/" ++ x ++ "@" ++ y ++ "/ctzn.network/comment/" ++ i).data := by
    rw [data_comment_path]
    simp
  have e1 : resolve ("/" ++ x ++ "@" ++ y ++ "/ctzn.network/post/" ++ i) =
      ViewKind.thread := by
    rw [resolve_of_not_exact _ (isExactPath_eq_false_of_at _ hat1), data_post_path,
      postTestL_shape x.data y.data i.data hx hy hi hxs hys his]
    simp
  have e2 : resolve ("/" ++ x ++ "@" ++ y ++ "/ctzn.network/comment/" ++ i) =
      ViewKind.thread := by
    rw [resolve_of_not_exact _ (isExactPath_eq_false_of_at _ hat2), data_comment_path]
    cases hp : postTestL
        ('/' :: (x.data ++ ('@' :: (y.data ++ ('/' :: (commentMid ++ i.data)))))) with
    | true => simp [hp]
    | false => simp [hp, commentTestL_shape x.data y.data i.data hx hy hi hxs hys his]
  refine ⟨e1, e2, ?_, ?_⟩
  · rw [e1]
    decide
  · rw [e2]
    decide

/-- Witness for the amended C2 at the concrete identity a@b and id 1. -/
theorem c2_thread_precedence_witness :
    resolve ("/" ++ "a" ++ "@" ++ "b" ++ "/ctzn.network/post/" ++ "1") = ViewKind.thread ∧
    resolve ("/" ++ "a" ++ "@" ++ "b" ++ "/ctzn.network/comment/" ++ "1") = ViewKind.thread ∧
    resolve ("/" ++ "a" ++ "@" ++ "b" ++ "/ctzn.network/post/" ++ "1") ≠ ViewKind.profile ∧
    resolve ("/" ++ "a" ++ "@" ++ "b" ++ "/ctzn.network/comment/" ++ "1") ≠
      ViewKind.profile :=
  c2_thread_precedence ("a") ("b") ("1") (by decide) (by decide) (by decide) (by decide)
    (by decide) (by decide)

/-- C3 counterexample: /foo/bar@baz matches no exact case and neither thread
pattern, and its first segment foo holds no at-sign, yet it resolves to the
user-profile kind, not the 404 kind: USER_PATH_REGEX is unanchored, so the
at-sign of a later segment already makes it match. -/
theorem c3_counterexample :
    resolve ("/foo/bar@baz") = ViewKind.profile ∧
    resolve ("/foo/bar@baz") ≠ ViewKind.notFound ∧
    isExactPath ("/foo/bar@baz") = false ∧
    postTestL (("/foo/bar@baz").data) = false ∧
    commentTestL (("/foo/bar@baz").data) = false ∧
    '@' ∉ ((("/foo/bar@baz").data).drop 1).takeWhile (fun c => c != '/') := by
  decide

/-- C3 (amended): for every path matching no exact case and neither thread
pattern, render resolves to the user-profile kind exactly when the path
holds, anywhere — not only in its first segment — a slash followed by a
nonempty slash-free block, an at-sign and a further non-slash character; it
resolves to the 404 kind exactly otherwise. -/
theorem c3_profile_iff (p : String)
    (hex : isExactPath p = false)
    (hpost : postTestL p.data = false)
    (hcom : commentTestL p.data = false) :
    (resolve p = ViewKind.profile ↔
      ∃ pre x d s, p.data = pre ++ ('/' :: (x ++ ('@' :: d :: s))) ∧ x ≠ [] ∧
        (∀ c ∈ x, c ≠ '/') ∧ d ≠ '/') ∧
    (resolve p = ViewKind.notFound ↔
      ¬ ∃ pre x d s, p.data = pre ++ ('/' :: (x ++ ('@' :: d :: s))) ∧ x ≠ [] ∧
        (∀ c ∈ x, c ≠ '/') ∧ d ≠ '/') := by
  have hu := userTestL_eq_true p.data
  cases h : userTestL p.data with
  | true =>
    rw [resolve_of_not_exact p hex, hpost, hcom, h]
    exact ⟨iff_of_true rfl (hu.mp h), iff_of_false (by decide) (not_not_intro (hu.mp h))⟩
  | false =>
    rw [resolve_of_not_exact p hex, hpost, hcom, h]
    have hne : ¬ ∃ pre x d s, p.data = pre ++ ('/' :: (x ++ ('@' :: d :: s))) ∧ x ≠ [] ∧
        (∀ c ∈ x, c ≠ '/') ∧ d ≠ '/' := by
      intro he
      have ht := hu.mpr he
      rw [h] at ht
      exact absurd ht (by decide)
    exact ⟨iff_of_false (by decide) hne, iff_of_true rfl hne⟩

/-- Witness for the amended C3: an at-sign in the second segment makes the
resolver yield the profile kind. -/
theorem c3_profile_iff_witness :
    resolve ("/alpha/beta@gamma") = ViewKind.profile :=
  (c3_profile_iff ("/alpha/beta@gamma") (by decide) (by decide) (by decide)).1.mpr
    ⟨['/', 'a', 'l', 'p', 'h', 'a'], ['b', 'e', 't', 'a'], 'g', ['a', 'm', 'm', 'a'],
      by decide, by decide, by decide, by decide⟩

/-- C4 counterexample: with two anchors on the composed path — the first
entry being the one nearest the event target — the loop of lines 171-176
selects the later, outermost one, whose href is then examined; it does not
select the nearest anchor. -/
theorem c4_counterexample :
    findAnchor [⟨("A"), some ("/inner")⟩, ⟨("A"), some ("/outer")⟩] ≠
      List.find? isAnchor [⟨("A"), some ("/inner")⟩, ⟨("A"), some ("/outer")⟩] ∧
    findAnchor [⟨("A"), some ("/inner")⟩, ⟨("A"), some ("/outer")⟩] =
      some ⟨("A"), some ("/outer")⟩ ∧
    onGlobalClick (fun href _ => ⟨("app"), href⟩) ("app")
        ⟨false, [⟨("A"), some ("/inner")⟩, ⟨("A"), some ("/outer")⟩]⟩ =
      ClickOutcome.intercept ("/outer") := by
  refine ⟨by decide, by decide, rfl⟩

/-- C4 (amended): the click interceptor selects the last anchor of the
composed dispatch path — the outermost enclosing anchor, i.e. the first
anchor of the path read outside-in — as the one whose href is examined; and
when the path holds no anchor the event is left untouched. -/
theorem c4_outermost_anchor (r : String → String → URLRec) (o : String)
    (e : ClickEvent) :
    findAnchor e.composedPath = e.composedPath.reverse.find? isAnchor ∧
    (e.composedPath.find? isAnchor = none →
      onGlobalClick r o e = ClickOutcome.passthrough) := by
  refine ⟨findAnchor_eq _, fun hnone => ?_⟩
  have hrev : e.composedPath.reverse.find? isAnchor = none := by
    rw [List.find?_eq_none] at hnone ⊢
    intro x hx
    exact hnone x (List.mem_reverse.mp hx)
  have hfa : findAnchor e.composedPath = none := by rw [findAnchor_eq, hrev]
  cases hdp : e.defaultPrevented <;> simp [onGlobalClick, hdp, hfa]

/-- Witness for the amended C4: an anchor-free path leaves the event alone. -/
theorem c4_outermost_anchor_witness :
    onGlobalClick (fun href _ => ⟨("app"), href⟩) ("app")
      ⟨false, [⟨("DIV"), none⟩]⟩ = ClickOutcome.passthrough :=
  (c4_outermost_anchor (fun href _ => ⟨("app"), href⟩) ("app")
    ⟨false, [⟨("DIV"), none⟩]⟩).2 (by decide)

/-- C5: for a processed click whose selected anchor carries an href, a
cross-origin resolution leaves the event untouched (no preventDefault, no
navigateTo), while a same-origin resolution prevents the default and calls
navigateTo with exactly the pathname portion of the resolved URL. -/
theorem c5_origin_gate (r : String → String → URLRec) (o : String)
    (e : ClickEvent) (anchor : Elem) (href : String)
    (h0 : e.defaultPrevented = false)
    (h1 : findAnchor e.composedPath = some anchor)
    (h2 : anchor.href = some href) :
    ((r href o).origin ≠ o → onGlobalClick r o e = ClickOutcome.passthrough) ∧
    ((r href o).origin = o →
      onGlobalClick r o e = ClickOutcome.intercept (r href o).pathname) := by
  constructor
  · intro h
    simp [onGlobalClick, h0, h1, h2, beq_eq_false_iff_ne.mpr h]
  · intro h
    simp [onGlobalClick, h0, h1, h2, h]

/-- Witness for C5 at a same-origin resolution. -/
theorem c5_origin_gate_witness :
    onGlobalClick (fun href _ => ⟨("app"), href⟩) ("app")
      ⟨false, [⟨("A"), some ("/dest")⟩]⟩ = ClickOutcome.intercept ("/dest") :=
  (c5_origin_gate (fun href _ => ⟨("app"), href⟩) ("app")
    ⟨false, [⟨("A"), some ("/dest")⟩]⟩ ⟨("A"), some ("/dest")⟩ ("/dest")
    rfl (by decide) rfl).2 rfl

end Ctznry
